import Mathlib

/-!
Shallow embedding of `src/custom_builtin/counter.c` (the flyline counter
bash builtin) and verification of its specification.

Modelling conventions:
* C strings (bash words) are `List Char`; the terminating NUL is implicit,
  so "`*endptr != '\0'`" becomes "the remaining suffix is nonempty".
* `long` values are `Int`; the `+=`/`-=` updates of the counter wrap
  modulo 2^64 into the signed 64-bit range (`wrap`), and `strtol`
  saturates to `LONG_MAX`/`LONG_MIN` on out-of-range input, as glibc does.
* `counter_builtin` takes the word list and the current value of the
  global `counter_value` and returns the new value together with the
  observable result: the printed value on success, the fixed
  "Input set to jobu" message for the `setinput` branch, or the error
  diagnostic kind on failure (`EXECUTION_FAILURE`).
-/

namespace Flyline

/-- C locale `isspace`, as used by `strtol` when skipping leading blanks. -/
def isSpace (c : Char) : Bool :=
  c = ' ' || c = '\t' || c = '\n' || c = '\x0b' || c = '\x0c' || c = '\r'

/-- Decimal digit test (`'0'` through `'9'`). -/
def isDigit (c : Char) : Bool :=
  48 ≤ c.toNat && c.toNat ≤ 57

/-- `LONG_MAX` for the 64-bit `long` of the target platform. -/
def LONG_MAX : Int := 2 ^ 63 - 1

/-- `LONG_MIN` for the 64-bit `long` of the target platform. -/
def LONG_MIN : Int := -(2 ^ 63)

/-- Saturation applied by `strtol` when the converted value is out of the
`long` range (it returns `LONG_MAX` resp. `LONG_MIN` and sets `errno`,
which `parse_number` never inspects). -/
def clampLong (x : Int) : Int := max LONG_MIN (min LONG_MAX x)

/-- Value of a run of decimal digits, most significant first. -/
def digitsVal (ds : List Char) : Int :=
  ds.foldl (fun a c => a * 10 + ((c.toNat : Int) - 48)) 0

/-- The optional single leading sign consumed by `strtol`, together with
the remainder of the string. -/
def splitSign (s : List Char) : Int × List Char :=
  match s with
  | '-' :: t => (-1, t)
  | '+' :: t => (1, t)
  | _ => (1, s)

/-- The conversion performed by `strtol(str, &endptr, 10)` before range
saturation: skip C whitespace, consume an optional sign, then a maximal
run of digits.  `none` when no digit is consumed (then `endptr == str`);
otherwise the exact mathematical value and the unconsumed suffix
(`endptr` points at its first character). -/
def strtol_raw (s : List Char) : Option (Int × List Char) :=
  let s1 := s.dropWhile isSpace
  let p := splitSign s1
  let ds := p.2.takeWhile isDigit
  if ds = [] then none
  else some (p.1 * digitsVal ds, p.2.dropWhile isDigit)

/-- `strtol(str, &endptr, 10)`: the returned `long` (0 and `endptr == str`
when no conversion is performed, the saturated value otherwise) paired
with the suffix starting at `endptr`. -/
def strtol (s : List Char) : Int × List Char :=
  match strtol_raw s with
  | none => (0, s)
  | some (v, rest) => (clampLong v, rest)

/-- `parse_number` from counter.c: fail on a NULL/empty string, call
`strtol`, and reject the argument whenever `*endptr != '\0'` (printing
"numeric argument required").  `some v` models `return 1` with `*result
= v`; `none` models `return 0`. -/
def parse_number (str : List Char) : Option Int :=
  if str = [] then none
  else
    let r := strtol str
    if r.2 = [] then some r.1 else none

/-- Signed 64-bit wraparound of the `long` arithmetic `counter_value += n`
and `counter_value -= n`. -/
def wrap (x : Int) : Int := (x + 2 ^ 63) % 2 ^ 64 - 2 ^ 63

/-- The three failure diagnostics of the spec's error taxonomy, matching
the three `builtin_error` sites of counter.c: `parse_number`'s
"numeric argument required" (`InvalidArgument`), `set`'s missing-operand
message (`MissingArgument`), and the final "invalid operation"
message (`UnknownOperation`). -/
inductive CounterError
  | MissingArgument
  | InvalidArgument
  | UnknownOperation
  deriving DecidableEq

/-- Observable outcome of one `counter_builtin` call: `ok v` is
`EXECUTION_SUCCESS` with the counter value `v` printed to stdout;
`okInputSet` is `EXECUTION_SUCCESS` with the fixed message
"Input set to jobu" printed instead of any value; `err e` is
`EXECUTION_FAILURE` with diagnostic `e` on stderr and nothing printed
to stdout. -/
inductive CmdResult
  | ok (printed : Int)
  | okInputSet
  | err (e : CounterError)
  deriving DecidableEq

/-- Exit status of a result: `EXECUTION_SUCCESS` for both success forms,
`EXECUTION_FAILURE` for every error. -/
def CmdResult.isSuccess : CmdResult → Bool
  | .err _ => false
  | _ => true

/-- The command words compared against by the `strcmp` chain. -/
def kw_setinput : List Char := ['s', 'e', 't', 'i', 'n', 'p', 'u', 't']

def kw_inc : List Char := ['i', 'n', 'c']

def kw_increment : List Char := ['i', 'n', 'c', 'r', 'e', 'm', 'e', 'n', 't']

def kw_dec : List Char := ['d', 'e', 'c']

def kw_decrement : List Char := ['d', 'e', 'c', 'r', 'e', 'm', 'e', 'n', 't']

def kw_set : List Char := ['s', 'e', 't']

def kw_reset : List Char := ['r', 'e', 's', 'e', 't']

def kw_get : List Char := ['g', 'e', 't']

/-- `counter_builtin` from counter.c: dispatch on the first word of
`list`, with `counter_value` the current value of the global counter.
Returns the value of the global after the call together with the
observable result.  Words after the first argument are ignored, as in
the C (`list->next->word->word` only). -/
def counter_builtin (list : List (List Char)) (counter_value : Int) :
    Int × CmdResult :=
  match list with
  | [] => (counter_value, CmdResult.ok counter_value)
  | operation :: rest =>
    if operation = kw_setinput then
      (counter_value, CmdResult.okInputSet)
    else if operation = kw_inc ∨ operation = kw_increment then
      match rest with
      | [] => (wrap (counter_value + 1), CmdResult.ok (wrap (counter_value + 1)))
      | arg :: _ =>
        match parse_number arg with
        | none => (counter_value, CmdResult.err CounterError.InvalidArgument)
        | some n => (wrap (counter_value + n), CmdResult.ok (wrap (counter_value + n)))
    else if operation = kw_dec ∨ operation = kw_decrement then
      match rest with
      | [] => (wrap (counter_value - 1), CmdResult.ok (wrap (counter_value - 1)))
      | arg :: _ =>
        match parse_number arg with
        | none => (counter_value, CmdResult.err CounterError.InvalidArgument)
        | some n => (wrap (counter_value - n), CmdResult.ok (wrap (counter_value - n)))
    else if operation = kw_set then
      match rest with
      | [] => (counter_value, CmdResult.err CounterError.MissingArgument)
      | arg :: _ =>
        match parse_number arg with
        | none => (counter_value, CmdResult.err CounterError.InvalidArgument)
        | some n => (n, CmdResult.ok n)
    else if operation = kw_reset then
      (0, CmdResult.ok 0)
    else if operation = kw_get then
      (counter_value, CmdResult.ok counter_value)
    else
      match parse_number operation with
      | none => (counter_value, CmdResult.err CounterError.UnknownOperation)
      | some n => (n, CmdResult.ok n)

/-! ## Branch lemmas for `counter_builtin`

Each lemma exposes one branch of the `strcmp` dispatch chain; all the
keyword comparisons there are closed, so these hold by reduction. -/

theorem cb_nil (v : Int) : counter_builtin [] v = (v, CmdResult.ok v) := rfl

theorem cb_setinput (rest : List (List Char)) (v : Int) :
    counter_builtin (kw_setinput :: rest) v = (v, CmdResult.okInputSet) := rfl

theorem cb_inc_noarg (v : Int) :
    counter_builtin [kw_inc] v = (wrap (v + 1), CmdResult.ok (wrap (v + 1))) := rfl

theorem cb_increment_noarg (v : Int) :
    counter_builtin [kw_increment] v
      = (wrap (v + 1), CmdResult.ok (wrap (v + 1))) := rfl

theorem cb_dec_noarg (v : Int) :
    counter_builtin [kw_dec] v = (wrap (v - 1), CmdResult.ok (wrap (v - 1))) := rfl

theorem cb_decrement_noarg (v : Int) :
    counter_builtin [kw_decrement] v
      = (wrap (v - 1), CmdResult.ok (wrap (v - 1))) := rfl

theorem cb_inc_arg (s : List Char) (t : List (List Char)) (v : Int) :
    counter_builtin (kw_inc :: s :: t) v =
      match parse_number s with
      | none => (v, CmdResult.err CounterError.InvalidArgument)
      | some n => (wrap (v + n), CmdResult.ok (wrap (v + n))) := rfl

theorem cb_increment_arg (s : List Char) (t : List (List Char)) (v : Int) :
    counter_builtin (kw_increment :: s :: t) v =
      match parse_number s with
      | none => (v, CmdResult.err CounterError.InvalidArgument)
      | some n => (wrap (v + n), CmdResult.ok (wrap (v + n))) := rfl

theorem cb_dec_arg (s : List Char) (t : List (List Char)) (v : Int) :
    counter_builtin (kw_dec :: s :: t) v =
      match parse_number s with
      | none => (v, CmdResult.err CounterError.InvalidArgument)
      | some n => (wrap (v - n), CmdResult.ok (wrap (v - n))) := rfl

theorem cb_decrement_arg (s : List Char) (t : List (List Char)) (v : Int) :
    counter_builtin (kw_decrement :: s :: t) v =
      match parse_number s with
      | none => (v, CmdResult.err CounterError.InvalidArgument)
      | some n => (wrap (v - n), CmdResult.ok (wrap (v - n))) := rfl

theorem cb_set_noarg (v : Int) :
    counter_builtin [kw_set] v
      = (v, CmdResult.err CounterError.MissingArgument) := rfl

theorem cb_set_arg (s : List Char) (t : List (List Char)) (v : Int) :
    counter_builtin (kw_set :: s :: t) v =
      match parse_number s with
      | none => (v, CmdResult.err CounterError.InvalidArgument)
      | some n => (n, CmdResult.ok n) := rfl

theorem cb_reset (rest : List (List Char)) (v : Int) :
    counter_builtin (kw_reset :: rest) v = (0, CmdResult.ok 0) := rfl

theorem cb_get (rest : List (List Char)) (v : Int) :
    counter_builtin (kw_get :: rest) v = (v, CmdResult.ok v) := rfl

theorem cb_other (op : List Char) (rest : List (List Char)) (v : Int)
    (h1 : op ≠ kw_setinput) (h2 : op ≠ kw_inc) (h3 : op ≠ kw_increment)
    (h4 : op ≠ kw_dec) (h5 : op ≠ kw_decrement) (h6 : op ≠ kw_set)
    (h7 : op ≠ kw_reset) (h8 : op ≠ kw_get) :
    counter_builtin (op :: rest) v =
      match parse_number op with
      | none => (v, CmdResult.err CounterError.UnknownOperation)
      | some n => (n, CmdResult.ok n) := by
  simp only [counter_builtin]
  rw [if_neg h1, if_neg (not_or.mpr ⟨h2, h3⟩), if_neg (not_or.mpr ⟨h4, h5⟩),
    if_neg h6, if_neg h7, if_neg h8]

/-! ## Arithmetic lemmas about `wrap` -/

theorem wrap_eq_self {x : Int} (h1 : LONG_MIN ≤ x) (h2 : x ≤ LONG_MAX) :
    wrap x = x := by
  unfold wrap
  unfold LONG_MIN at h1
  unfold LONG_MAX at h2
  norm_num at h1 h2 ⊢
  omega

theorem wrap_sub_of_wrap (a n : Int) : wrap (wrap a - n) = wrap (a - n) := by
  unfold wrap
  norm_num
  omega

/-! ## Lemmas about `strtol` and `parse_number` -/

theorem strtol_raw_eq (s : List Char) :
    strtol_raw s =
      if (splitSign (s.dropWhile isSpace)).2.takeWhile isDigit = [] then none
      else some ((splitSign (s.dropWhile isSpace)).1 *
          digitsVal ((splitSign (s.dropWhile isSpace)).2.takeWhile isDigit),
        (splitSign (s.dropWhile isSpace)).2.dropWhile isDigit) := rfl

theorem strtol_of_raw_none {s : List Char} (h : strtol_raw s = none) :
    strtol s = (0, s) := by
  simp only [strtol, h]

theorem strtol_of_raw_some {s : List Char} {v : Int} {rest : List Char}
    (h : strtol_raw s = some (v, rest)) : strtol s = (clampLong v, rest) := by
  simp only [strtol, h]

theorem parse_number_eq (s : List Char) :
    parse_number s =
      if s = [] then none
      else if (strtol s).2 = [] then some (strtol s).1 else none := rfl

/-- If the string after the optional leading whitespace and sign still
holds a non-digit, `strtol` leaves a nonempty suffix at `endptr` (or
converts nothing at all), so `parse_number` rejects the string. -/
theorem parse_number_eq_none_of_bad {s : List Char} {c : Char}
    (hc : c ∈ (splitSign (s.dropWhile isSpace)).2) (hcd : isDigit c = false) :
    parse_number s = none := by
  have hrest : (splitSign (s.dropWhile isSpace)).2.dropWhile isDigit ≠ [] := by
    intro hnil
    rw [List.dropWhile_eq_nil_iff] at hnil
    have hdc := hnil c hc
    rw [hcd] at hdc
    exact Bool.false_ne_true hdc
  have hsne : s ≠ [] := by
    intro h0
    rw [h0] at hc
    simp [splitSign] at hc
  have h2 : (strtol s).2 ≠ [] := by
    by_cases hds : (splitSign (s.dropWhile isSpace)).2.takeWhile isDigit = []
    · have hraw : strtol_raw s = none := by rw [strtol_raw_eq, if_pos hds]
      rw [strtol_of_raw_none hraw]
      exact hsne
    · have hraw : strtol_raw s = some ((splitSign (s.dropWhile isSpace)).1 *
          digitsVal ((splitSign (s.dropWhile isSpace)).2.takeWhile isDigit),
          (splitSign (s.dropWhile isSpace)).2.dropWhile isDigit) := by
        rw [strtol_raw_eq, if_neg hds]
      rw [strtol_of_raw_some hraw]
      exact hrest
  rw [parse_number_eq, if_neg hsne, if_neg h2]

/-- Every outcome of `counter_builtin` either leaves the counter value
untouched or is a success that prints the new value. -/
theorem cb_cases (list : List (List Char)) (v : Int) :
    (counter_builtin list v).1 = v ∨
      ∃ x, counter_builtin list v = (x, CmdResult.ok x) := by
  cases list with
  | nil => exact Or.inl rfl
  | cons op rest =>
    simp only [counter_builtin]
    repeat' split
    all_goals first
      | exact Or.inl rfl
      | exact Or.inr ⟨_, rfl⟩

/-! ## The claims -/

/-- Claim C1, counterexample: the argument " 5" contains a non-digit
character (the leading space) that is not a leading sign, yet
`set " 5"` does not fail with InvalidArgument: it succeeds and changes
the counter from 0 to 5, because `strtol` skips leading whitespace. -/
theorem c1_counterexample :
    isDigit ' ' = false ∧ ' ' ≠ '+' ∧ ' ' ≠ '-' ∧
    counter_builtin [kw_set, [' ', '5']] 0 = (5, CmdResult.ok 5) := by decide

/-- Claim C1 (amended): for every string `s` that, after the leading
whitespace skipped by `strtol` and an optional sign, still contains a
non-digit character, `inc s`, `increment s`, `dec s`, `decrement s` and
`set s` all fail with InvalidArgument and leave the counter value
unchanged. -/
theorem c1_claim (s : List Char) (v : Int)
    (h : ∃ c ∈ (splitSign (s.dropWhile isSpace)).2, isDigit c = false) :
    counter_builtin [kw_inc, s] v = (v, CmdResult.err CounterError.InvalidArgument) ∧
    counter_builtin [kw_increment, s] v = (v, CmdResult.err CounterError.InvalidArgument) ∧
    counter_builtin [kw_dec, s] v = (v, CmdResult.err CounterError.InvalidArgument) ∧
    counter_builtin [kw_decrement, s] v = (v, CmdResult.err CounterError.InvalidArgument) ∧
    counter_builtin [kw_set, s] v = (v, CmdResult.err CounterError.InvalidArgument) := by
  obtain ⟨c, hc, hcd⟩ := h
  have hp := parse_number_eq_none_of_bad hc hcd
  refine ⟨?_, ?_, ?_, ?_, ?_⟩ <;>
    simp only [cb_inc_arg, cb_increment_arg, cb_dec_arg, cb_decrement_arg,
      cb_set_arg, hp]

/-- Witness for C1 (amended) at `s = "abc"`, `v = 7`. -/
theorem c1_witness :
    counter_builtin [kw_inc, ['a', 'b', 'c']] 7
        = (7, CmdResult.err CounterError.InvalidArgument) ∧
    counter_builtin [kw_increment, ['a', 'b', 'c']] 7
        = (7, CmdResult.err CounterError.InvalidArgument) ∧
    counter_builtin [kw_dec, ['a', 'b', 'c']] 7
        = (7, CmdResult.err CounterError.InvalidArgument) ∧
    counter_builtin [kw_decrement, ['a', 'b', 'c']] 7
        = (7, CmdResult.err CounterError.InvalidArgument) ∧
    counter_builtin [kw_set, ['a', 'b', 'c']] 7
        = (7, CmdResult.err CounterError.InvalidArgument) :=
  c1_claim ['a', 'b', 'c'] 7 ⟨'a', by decide, by decide⟩

/-- Claim C2, counterexample: the token "setinput" is none of the seven
keywords listed by the claim and is not a parseable integer, yet the
call succeeds (printing a fixed message) instead of failing with
UnknownOperation. -/
theorem c2_counterexample :
    kw_setinput ≠ kw_inc ∧ kw_setinput ≠ kw_increment ∧
    kw_setinput ≠ kw_dec ∧ kw_setinput ≠ kw_decrement ∧
    kw_setinput ≠ kw_set ∧ kw_setinput ≠ kw_reset ∧ kw_setinput ≠ kw_get ∧
    parse_number kw_setinput = none ∧
    counter_builtin [kw_setinput] 3 = (3, CmdResult.okInputSet) ∧
    CmdResult.okInputSet.isSuccess = true := by decide

/-- Claim C2 (amended): for every token `s` that is none of the eight
recognized command words (setinput, inc, increment, dec, decrement, set,
reset, get) and does not parse as an integer, invoking the builtin with
`s` as sole word fails with UnknownOperation and leaves the counter
value unchanged. -/
theorem c2_claim (s : List Char) (v : Int)
    (hk : s ≠ kw_setinput ∧ s ≠ kw_inc ∧ s ≠ kw_increment ∧ s ≠ kw_dec ∧
      s ≠ kw_decrement ∧ s ≠ kw_set ∧ s ≠ kw_reset ∧ s ≠ kw_get)
    (hp : parse_number s = none) :
    counter_builtin [s] v = (v, CmdResult.err CounterError.UnknownOperation) := by
  obtain ⟨h1, h2, h3, h4, h5, h6, h7, h8⟩ := hk
  rw [cb_other s [] v h1 h2 h3 h4 h5 h6 h7 h8, hp]

/-- Witness for C2 (amended) at `s = "foo"`, `v = 3`. -/
theorem c2_witness :
    counter_builtin [['f', 'o', 'o']] 3
      = (3, CmdResult.err CounterError.UnknownOperation) :=
  c2_claim ['f', 'o', 'o'] 3 (by decide) (by decide)

/-- Claim C3: every invocation that results in an error (MissingArgument,
InvalidArgument or UnknownOperation) leaves the counter value exactly as
it was before the invocation. -/
theorem c3_claim (list : List (List Char)) (v : Int)
    (h : ∃ e, (counter_builtin list v).2 = CmdResult.err e) :
    (counter_builtin list v).1 = v := by
  obtain ⟨e, he⟩ := h
  rcases cb_cases list v with h1 | ⟨x, hx⟩
  · exact h1
  · rw [hx] at he
    exact absurd he (by simp)

/-- Witness for C3: `set` without argument at value 7 errors and the
value stays 7. -/
theorem c3_witness : (counter_builtin [kw_set] 7).1 = 7 :=
  c3_claim [kw_set] 7 ⟨CounterError.MissingArgument, by decide⟩

/-- Claim C4: from value 0, the sequence `inc 5`, `dec 2`, `set 100`,
`reset`, bare query yields the values 5, 3, 100, 0, 0, each step
succeeding and printing the resulting value. -/
theorem c4_claim :
    counter_builtin [kw_inc, ['5']] 0 = (5, CmdResult.ok 5) ∧
    counter_builtin [kw_dec, ['2']] 5 = (3, CmdResult.ok 3) ∧
    counter_builtin [kw_set, ['1', '0', '0']] 3 = (100, CmdResult.ok 100) ∧
    counter_builtin [kw_reset] 100 = (0, CmdResult.ok 0) ∧
    counter_builtin [] 0 = (0, CmdResult.ok 0) := by decide

/-- Claim C5: `set` with no argument fails with MissingArgument and the
counter keeps its prior value. -/
theorem c5_claim (v : Int) :
    counter_builtin [kw_set] v = (v, CmdResult.err CounterError.MissingArgument) ∧
    (CmdResult.err CounterError.MissingArgument).isSuccess = false :=
  ⟨rfl, rfl⟩

/-- Claim C6: for every in-range starting value `v` and every argument
string accepted by the parser with value `n`, `inc` by `n` followed by
`dec` by `n` returns the counter to `v` (and prints `v`). -/
theorem c6_claim (v n : Int) (s : List Char) (hp : parse_number s = some n)
    (hlo : LONG_MIN ≤ v) (hhi : v ≤ LONG_MAX) :
    counter_builtin [kw_dec, s] ((counter_builtin [kw_inc, s] v).1)
      = (v, CmdResult.ok v) := by
  have h1 : (counter_builtin [kw_inc, s] v).1 = wrap (v + n) := by
    rw [cb_inc_arg, hp]
  rw [h1, cb_dec_arg, hp]
  show (wrap (wrap (v + n) - n), CmdResult.ok (wrap (wrap (v + n) - n)))
    = (v, CmdResult.ok v)
  rw [wrap_sub_of_wrap, add_sub_cancel_right, wrap_eq_self hlo hhi]

/-- Witness for C6 at `v = 3`, `s = "5"`. -/
theorem c6_witness :
    counter_builtin [kw_dec, ['5']] ((counter_builtin [kw_inc, ['5']] 3).1)
      = (3, CmdResult.ok 3) :=
  c6_claim 3 5 ['5'] (by decide) (by decide) (by decide)

/-- Claim C7: a bare token that parses as an integer behaves exactly like
`set` with that token: same new value, same output, same status. -/
theorem c7_claim (t : List Char) (n v : Int) (hp : parse_number t = some n) :
    counter_builtin [t] v = counter_builtin [kw_set, t] v := by
  have hne : ∀ k : List Char, parse_number k = none → t ≠ k := by
    intro k hk ht
    rw [ht, hk] at hp
    exact Option.noConfusion hp
  rw [cb_other t [] v (hne _ (by decide)) (hne _ (by decide)) (hne _ (by decide))
      (hne _ (by decide)) (hne _ (by decide)) (hne _ (by decide))
      (hne _ (by decide)) (hne _ (by decide)),
    cb_set_arg, hp]

/-- Witness for C7 at `t = "5"`, `v = 9`. -/
theorem c7_witness :
    counter_builtin [['5']] 9 = counter_builtin [kw_set, ['5']] 9 :=
  c7_claim ['5'] 5 9 (by decide)

/-- Claim C8: for every counter value, `inc`/`increment` with no argument
equals `inc`/`increment 1`, and `dec`/`decrement` with no argument
equals `dec`/`decrement 1`. -/
theorem c8_claim (v : Int) :
    counter_builtin [kw_inc] v = counter_builtin [kw_inc, ['1']] v ∧
    counter_builtin [kw_increment] v = counter_builtin [kw_increment, ['1']] v ∧
    counter_builtin [kw_dec] v = counter_builtin [kw_dec, ['1']] v ∧
    counter_builtin [kw_decrement] v = counter_builtin [kw_decrement, ['1']] v := by
  have hp : parse_number ['1'] = some 1 := by decide
  refine ⟨?_, ?_, ?_, ?_⟩
  · rw [cb_inc_noarg, cb_inc_arg, hp]
  · rw [cb_increment_noarg, cb_increment_arg, hp]
  · rw [cb_dec_noarg, cb_dec_arg, hp]
  · rw [cb_decrement_noarg, cb_decrement_arg, hp]

/-- Claim C9: invoking the builtin with first token "setinput" succeeds,
leaves the counter value unchanged, and its output is the fixed
"Input set to jobu" message, never the printed counter value. -/
theorem c9_claim (rest : List (List Char)) (v : Int) :
    counter_builtin (kw_setinput :: rest) v = (v, CmdResult.okInputSet) ∧
    CmdResult.okInputSet.isSuccess = true ∧
    ∀ x : Int, CmdResult.okInputSet ≠ CmdResult.ok x :=
  ⟨rfl, rfl, fun _ h => CmdResult.noConfusion h⟩

/-- Claim C10: a sign-and-digits argument whose exact value lies outside
the signed 64-bit `long` range is not rejected: `strtol` saturates to
`LONG_MAX` resp. `LONG_MIN` (errno is never checked) and `set` succeeds
with the clamped value. -/
theorem c10_claim (s : List Char) (x w : Int)
    (h : strtol_raw s = some (x, [])) :
    (LONG_MAX < x →
      counter_builtin [kw_set, s] w = (LONG_MAX, CmdResult.ok LONG_MAX)) ∧
    (x < LONG_MIN →
      counter_builtin [kw_set, s] w = (LONG_MIN, CmdResult.ok LONG_MIN)) := by
  have hsne : s ≠ [] := by
    intro h0
    rw [h0] at h
    exact Option.noConfusion h
  have hpn : parse_number s = some (clampLong x) := by
    rw [parse_number_eq, if_neg hsne, strtol_of_raw_some h, if_pos rfl]
  constructor
  · intro hx
    have hcl : clampLong x = LONG_MAX := by
      unfold clampLong
      rw [min_eq_left hx.le, max_eq_right (by decide : LONG_MIN ≤ LONG_MAX)]
    rw [cb_set_arg, hpn, hcl]
  · intro hx
    have hcl : clampLong x = LONG_MIN := by
      unfold clampLong
      rw [min_eq_right (hx.le.trans (by decide : LONG_MIN ≤ LONG_MAX)),
        max_eq_left hx.le]
    rw [cb_set_arg, hpn, hcl]

/-- Witness for C10 at `s = "9223372036854775808"` (that is 2^63, one
past `LONG_MAX`): `set` succeeds with the saturated value `LONG_MAX`. -/
theorem c10_witness :
    counter_builtin
        [kw_set, ['9', '2', '2', '3', '3', '7', '2', '0', '3', '6', '8',
          '5', '4', '7', '7', '5', '8', '0', '8']] 0
      = (LONG_MAX, CmdResult.ok LONG_MAX) :=
  (c10_claim
    ['9', '2', '2', '3', '3', '7', '2', '0', '3', '6', '8',
      '5', '4', '7', '7', '5', '8', '0', '8'] (2 ^ 63) 0 (by decide)).1
    (by decide)

end Flyline
